import Mathlib

/-!
Shallow embedding of the server-lifecycle controller in `start.go` of the
fiber repository: the startup configuration resolver `startConfigDefault`,
the TLS assembly and dispatch logic of `App.Start`, the listener factory
`createListener`, the pre-serve `startupProcess`, and the graceful-shutdown
controller `gracefulShutdown`.  External collaborators (the Go standard
library's `tls.LoadX509KeyPair`, `os.ReadFile`, `net.Listen`, `tls.Listen`,
`x509.CertPool.AppendCertsFromPEM`, the prefork coordinator, the registered
hooks and the serve loop) are abstracted into an environment record `Env`
whose fields stand for the results those calls would produce.
-/

namespace FiberStart

/-- Go `error` values flowing through `start.go`.  `base` is an opaque error
produced by an external call; `tlsKeyPairLoad` is the `fmt.Errorf` wrapper
built in `Start` around a key-pair load failure, carrying both file paths and
the underlying cause; `gracefulTimeout` is the repository's
`ErrGracefulTimeout` passed to `OnShutdownError` on the timeout branch. -/
inductive GoErr
  | base (id : Nat)
  | tlsKeyPairLoad (certFile keyFile : String) (cause : GoErr)
  | gracefulTimeout
deriving DecidableEq, Repr

/-- A bound `net.Listener`, reduced to the address it reports via `Addr()`. -/
structure Listener where
  addrVal : Nat
deriving DecidableEq, Repr

/-- The two `tls.ClientAuthType` values `start.go` can produce: the zero value
`tls.NoClientCert`, and `tls.RequireAndVerifyClientCert` set for mTLS. -/
inductive ClientAuthType
  | noClientCert
  | requireAndVerifyClientCert
deriving DecidableEq, Repr

/-- `tls.VersionTLS12`. -/
def versionTLS12 : Nat := 771

/-- The fields of `tls.Config` that `start.go` writes.  Certificates and the
client-CA pool are lists of opaque certificate handles (`Nat`). -/
structure TLSConfig where
  minVersion : Nat
  certificates : List Nat
  clientAuth : ClientAuthType
  clientCAs : Option (List Nat)
deriving DecidableEq, Repr

/-- The `OnShutdownError` callback field.  Go distinguishes only nil vs
non-nil, but the default callback installed by `startConfigDefault` calls
`log.Fatalf`, which terminates the process with exit status 1, so the model
keeps it apart from user-supplied callbacks (tagged by an opaque id). -/
inductive ShutdownErrorCallback
  | noCallback
  | logFatalExit
  | user (id : Nat)
deriving DecidableEq, Repr

/-- `StartConfig` of `start.go`.  Function-typed fields (`TLSConfigFunc`,
`ListenerAddrFunc`, `BeforeServeFunc`) are modelled as `Option Nat`: `none`
is Go's nil, `some id` an arbitrary user function.  `GracefulTimeout` is a
`time.Duration` (signed nanosecond count), hence `Int`; `GracefulSignals`
is a list of opaque signal numbers. -/
structure StartConfig where
  ListenerNetwork : String
  CertFile : String
  CertKeyFile : String
  CertClientFile : String
  GracefulSignals : List Nat
  GracefulTimeout : Int
  TLSConfigFunc : Option Nat
  ListenerAddrFunc : Option Nat
  BeforeServeFunc : Option Nat
  DisableStartupMessage : Bool
  EnablePrefork : Bool
  EnablePrintRoutes : Bool
  OnShutdownError : ShutdownErrorCallback
deriving DecidableEq, Repr

/-- The repository constant `NetworkTCP4`. -/
def NetworkTCP4 : String := "tcp4"

/-- `os.Interrupt` (SIGINT), modelled as its conventional signal number. -/
def osInterrupt : Nat := 2

/-- `10 * time.Second` in nanoseconds. -/
def tenSeconds : Int := 10000000000

/-- The Go zero value of `StartConfig`: every field at its zero value. -/
def zeroStartConfig : StartConfig :=
  { ListenerNetwork := "", CertFile := "", CertKeyFile := "", CertClientFile := "",
    GracefulSignals := [], GracefulTimeout := 0,
    TLSConfigFunc := none, ListenerAddrFunc := none, BeforeServeFunc := none,
    DisableStartupMessage := false, EnablePrefork := false, EnablePrintRoutes := false,
    OnShutdownError := .noCallback }

/-- `startConfigDefault` of `start.go` (lines 104-136): with no argument it
returns the compiled-in defaults; with an argument it patches, in order, a
zero `GracefulTimeout`, an empty `GracefulSignals`, an empty
`ListenerNetwork` and a nil `OnShutdownError`. -/
def startConfigDefault (config : List StartConfig) : StartConfig :=
  match config with
  | [] =>
    { zeroStartConfig with
      GracefulTimeout := tenSeconds,
      GracefulSignals := [osInterrupt],
      ListenerNetwork := NetworkTCP4,
      OnShutdownError := .logFatalExit }
  | cfg0 :: _ =>
    let cfg1 := if cfg0.GracefulTimeout = 0 then
      { cfg0 with GracefulTimeout := tenSeconds } else cfg0
    let cfg2 := if cfg1.GracefulSignals.length < 1 then
      { cfg1 with GracefulSignals := [osInterrupt] } else cfg1
    let cfg3 := if cfg2.ListenerNetwork = "" then
      { cfg2 with ListenerNetwork := NetworkTCP4 } else cfg2
    if cfg3.OnShutdownError = .noCallback then
      { cfg3 with OnShutdownError := .logFatalExit } else cfg3

/-- Outcome of a run of the graceful-shutdown controller: the process exit
status and the errors handed to `OnShutdownError`, in order. -/
structure ShutdownOutcome where
  exitCode : Nat
  reported : List GoErr
deriving DecidableEq, Repr

/-- `gracefulShutdown` of `start.go` (lines 522-540), after the signal has
arrived.  The code builds a context whose deadline is `GracefulTimeout` in
the future and immediately runs a `select` WITH A `default` BRANCH, i.e. a
non-blocking poll: the timeout branch is taken only when the timeout context
is already expired at that instant, which (per `context.WithTimeout`) happens
exactly when the duration is non-positive.  Otherwise the default branch
calls `app.Shutdown()` with no time bound whatsoever — the drain's duration
`drainTime` is accepted here as an input only to record that it cannot
influence the outcome — then reports a non-nil drain error to a non-nil
`OnShutdownError` and calls `os.Exit(0)`.  The default callback is
`log.Fatalf`, which itself exits with status 1 before `os.Exit(0)` runs. -/
def gracefulShutdown (cfg : StartConfig) (drainTime : Nat) (drainErr : Option GoErr) :
    ShutdownOutcome :=
  if cfg.GracefulTimeout ≤ 0 then
    match cfg.OnShutdownError with
    | .noCallback => { exitCode := 1, reported := [] }
    | .logFatalExit => { exitCode := 1, reported := [.gracefulTimeout] }
    | .user _ => { exitCode := 1, reported := [.gracefulTimeout] }
  else
    match drainErr with
    | none => { exitCode := 0, reported := [] }
    | some e =>
      match cfg.OnShutdownError with
      | .noCallback => { exitCode := 0, reported := [] }
      | .logFatalExit => { exitCode := 1, reported := [e] }
      | .user _ => { exitCode := 0, reported := [e] }

/-- Environment of external collaborators: each field stands for the result
an external call would produce when `Start` reaches it.  `onListenHooks` is
the ordered list of results of the application's registered on-listen hooks
(`none` = the hook succeeded). -/
structure Env where
  loadX509KeyPair : String → String → Except GoErr Nat
  readFile : String → Except GoErr Nat
  cleanPath : String → String
  appendCertsFromPEM : Nat → List Nat
  netListen : String → String → Except GoErr Listener
  tlsListen : String → String → TLSConfig → Except GoErr Listener
  tlsMutate : TLSConfig → TLSConfig
  onListenHooks : List (Option GoErr)
  beforeServeResult : Option GoErr
  lnMetadataAddr : String → Listener → String
  lnMetadataTLS : String → Listener → Option TLSConfig
  preforkResult : String → Option TLSConfig → StartConfig → Option GoErr
  serveResult : Listener → Option GoErr
  signedBy : Nat → Nat → Bool

/-- The TLS-assembly prefix of `Start` (lines 147-174): with both `CertFile`
and `CertKeyFile` non-empty, load the key pair (wrapping a failure with both
paths and the cause) and build a `tls.Config` with `MinVersion` TLS 1.2 and
the loaded certificate; when `CertClientFile` is also non-empty, read that
file (a read failure is returned raw), append whatever certificates its PEM
contents parse to — the boolean result of `AppendCertsFromPEM` is ignored —
and switch on `RequireAndVerifyClientCert` with that pool. -/
def assembleTLS (env : Env) (cfg : StartConfig) : Except GoErr (Option TLSConfig) :=
  if cfg.CertFile ≠ "" ∧ cfg.CertKeyFile ≠ "" then
    match env.loadX509KeyPair cfg.CertFile cfg.CertKeyFile with
    | .error e => .error (.tlsKeyPairLoad cfg.CertFile cfg.CertKeyFile e)
    | .ok cert =>
      if cfg.CertClientFile ≠ "" then
        match env.readFile (env.cleanPath cfg.CertClientFile) with
        | .error e => .error e
        | .ok contents =>
          .ok (some { minVersion := versionTLS12, certificates := [cert],
                      clientAuth := .requireAndVerifyClientCert,
                      clientCAs := some (env.appendCertsFromPEM contents) })
      else
        .ok (some { minVersion := versionTLS12, certificates := [cert],
                    clientAuth := .noClientCert, clientCAs := none })
  else .ok none

/-- Line 176-177 of `Start`: a non-nil `TLSConfigFunc` is invoked on the
pointer to the assembled configuration; it can mutate an existing
configuration but cannot replace a nil one. -/
def applyTLSConfigFunc (env : Env) (cfg : StartConfig) (tc : Option TLSConfig) :
    Option TLSConfig :=
  match cfg.TLSConfigFunc, tc with
  | some _, some t => some (env.tlsMutate t)
  | _, _ => tc

deriving instance DecidableEq for Except

/-- Result of `createListener`: either the Go function panics with a
nil-pointer dereference, or it returns its `(net.Listener, error)` pair —
collapsed into an `Except`, since `net.Listen`/`tls.Listen` return exactly
one of the two non-nil — together with the addresses passed to
`ListenerAddrFunc`, in order. -/
inductive CLResult
  | panicked
  | returned (r : Except GoErr Listener) (hookAddrs : List Nat)
deriving DecidableEq, Repr

/-- `createListener` of `start.go` (lines 231-246): bind with `tls.Listen`
when a TLS configuration is present, `net.Listen` otherwise; then, when
`ListenerAddrFunc` is non-nil, call it with `listener.Addr()` BEFORE the
error is inspected — on a failed bind the listener is nil, so `.Addr()`
dereferences a nil interface and the call panics; finally return the pair. -/
def createListener (env : Env) (cfg : StartConfig) (addr : String)
    (tc : Option TLSConfig) : CLResult :=
  let bind : Except GoErr Listener :=
    match tc with
    | some t => env.tlsListen cfg.ListenerNetwork addr t
    | none => env.netListen cfg.ListenerNetwork addr
  match bind with
  | .ok l =>
    match cfg.ListenerAddrFunc with
    | some _ => .returned (.ok l) [l.addrVal]
    | none => .returned (.ok l) []
  | .error e =>
    match cfg.ListenerAddrFunc with
    | some _ => .panicked
    | none => .returned (.error e) []

/-- `Hooks.executeOnListenHooks`: run the registered on-listen hooks in
order, stopping at (and returning) the first error. -/
def executeOnListenHooks (hooks : List (Option GoErr)) : Option GoErr :=
  match hooks with
  | [] => none
  | some e :: _ => some e
  | none :: rest => executeOnListenHooks rest

/-- Result of `startupProcess` (lines 261-271): `panic(err)` on the first
failing on-listen hook, otherwise the routing tree is built and it returns. -/
inductive StartupProcessResult
  | panicked (e : GoErr)
  | ok
deriving DecidableEq, Repr

/-- `startupProcess` of `start.go`. -/
def startupProcess (hooks : List (Option GoErr)) : StartupProcessResult :=
  match executeOnListenHooks hooks with
  | some e => .panicked e
  | none => .ok

/-- The ways `Start` can panic. -/
inductive PanicKind
  | invalidAddrType
  | nilListenerDeref
  | onListenHook (e : GoErr)
deriving DecidableEq, Repr

/-- Observable steps of a `Start` run, in order. -/
inductive Event
  | bindAttempt (network addr : String)
  | listenerAddrHook (addr : Nat)
  | onListenHooksRun
  | treeBuilt
  | printMessages
  | beforeServeHook
  | preforkDelegated (addr : String) (tc : Option TLSConfig)
  | serveCall (lnAddr : Nat)
deriving DecidableEq, Repr

/-- How a `Start` call ends: a returned `error` value (possibly nil), or a
panic. -/
inductive Terminal
  | returned (e : Option GoErr)
  | panicked (p : PanicKind)
deriving DecidableEq, Repr

/-- The `addr any` argument of `Start`: a `string`, a `net.Listener`, or any
other value (the `default` case of the type switch). -/
inductive AddrArg
  | str (a : String)
  | listener (l : Listener)
  | other (d : String)
deriving DecidableEq, Repr

/-- Lines 214-227 of `Start`, shared by the two non-prefork branches once a
listener `ln` is in hand: `startupProcess` (panicking on a hook error, else
building the tree), `printMessages`, the optional `BeforeServeFunc` (whose
error is returned), then `app.server.Serve(ln)` whose result is returned. -/
def startTail (env : Env) (cfg : StartConfig) (ln : Listener) (ev : List Event) :
    Terminal × List Event :=
  match startupProcess env.onListenHooks with
  | .panicked e => (.panicked (.onListenHook e), ev ++ [.onListenHooksRun])
  | .ok =>
    let ev2 := ev ++ [.onListenHooksRun, .treeBuilt, .printMessages]
    match cfg.BeforeServeFunc with
    | some _ =>
      match env.beforeServeResult with
      | some e => (.returned (some e), ev2 ++ [.beforeServeHook])
      | none =>
        (.returned (env.serveResult ln),
         ev2 ++ [.beforeServeHook, .serveCall ln.addrVal])
    | none => (.returned (env.serveResult ln), ev2 ++ [.serveCall ln.addrVal])

/-- `App.Start` of `start.go` (lines 144-228): resolve the configuration,
assemble the TLS configuration (an error returns at once), run the
`TLSConfigFunc` hook, then dispatch on the argument: a string address goes to
the prefork coordinator when `EnablePrefork` is set and to `createListener`
otherwise (a bind error is returned; note `createListener` may instead
panic); a supplied listener with `EnablePrefork` is converted through
`lnMetadata` — note the Go `:=` SHADOWS `tlsConfig`, so prefork receives the
metadata-derived TLS configuration, not the assembled one — and delegated;
a supplied listener without prefork is used directly; any other argument
panics.  The non-prefork paths continue in `startTail`. -/
def Start (env : Env) (addr : AddrArg) (config : List StartConfig) :
    Terminal × List Event :=
  let cfg := startConfigDefault config
  match assembleTLS env cfg with
  | .error e => (.returned (some e), [])
  | .ok tc0 =>
    let tlsConfig := applyTLSConfigFunc env cfg tc0
    match addr with
    | .str a =>
      if cfg.EnablePrefork then
        (.returned (env.preforkResult a tlsConfig cfg),
         [.preforkDelegated a tlsConfig])
      else
        let ev := [Event.bindAttempt cfg.ListenerNetwork a]
        match createListener env cfg a tlsConfig with
        | .panicked => (.panicked .nilListenerDeref, ev)
        | .returned r hookAddrs =>
          let ev2 := ev ++ hookAddrs.map Event.listenerAddrHook
          match r with
          | .error e => (.returned (some e), ev2)
          | .ok ln => startTail env cfg ln ev2
    | .listener l =>
      if cfg.EnablePrefork then
        let newAddr := env.lnMetadataAddr cfg.ListenerNetwork l
        let metaTLS := env.lnMetadataTLS cfg.ListenerNetwork l
        (.returned (env.preforkResult newAddr metaTLS cfg),
         [.preforkDelegated newAddr metaTLS])
      else startTail env cfg l []
    | .other _ => (.panicked .invalidAddrType, [])

/-- Model of the external TLS handshake layer as configured by a
`tls.Config`: with `RequireAndVerifyClientCert`, a connection is accepted
only when the client presents a certificate that verifies against (is signed
by) some certificate of the configured client-CA pool; with `NoClientCert`
no client certificate is demanded. -/
def handshakeAccepts (signedBy : Nat → Nat → Bool) (tc : TLSConfig)
    (presented : Option Nat) : Bool :=
  match tc.clientAuth with
  | .noClientCert => true
  | .requireAndVerifyClientCert =>
    match presented, tc.clientCAs with
    | some c, some pool => pool.any (fun ca => signedBy c ca)
    | some _, none => false
    | none, _ => false

/-- A baseline environment in which every external call succeeds, used to
build concrete scenarios. -/
def baseEnv : Env :=
  { loadX509KeyPair := fun _ _ => .ok 100,
    readFile := fun _ => .ok 1,
    cleanPath := fun p => p,
    appendCertsFromPEM := fun _ => [7],
    netListen := fun _ _ => .ok { addrVal := 5 },
    tlsListen := fun _ _ _ => .ok { addrVal := 6 },
    tlsMutate := fun t => t,
    onListenHooks := [],
    beforeServeResult := none,
    lnMetadataAddr := fun _ _ => "meta",
    lnMetadataTLS := fun _ _ => none,
    preforkResult := fun _ _ _ => none,
    serveResult := fun _ => none,
    signedBy := fun _ _ => false }

/-- Per-field non-zero flags of a `StartConfig`, one per Go field in
declaration order, judged against the Go zero value of the field's type
(empty string, empty slice, zero duration, nil function, false). -/
def fieldNonZeroFlags (c : StartConfig) : List Bool :=
  [decide (c.ListenerNetwork ≠ ""), decide (c.CertFile ≠ ""), decide (c.CertKeyFile ≠ ""),
   decide (c.CertClientFile ≠ ""), decide (c.GracefulSignals ≠ []),
   decide (c.GracefulTimeout ≠ 0), decide (c.TLSConfigFunc ≠ none),
   decide (c.ListenerAddrFunc ≠ none), decide (c.BeforeServeFunc ≠ none),
   decide (c.DisableStartupMessage ≠ false), decide (c.EnablePrefork ≠ false),
   decide (c.EnablePrintRoutes ≠ false),
   decide (c.OnShutdownError ≠ ShutdownErrorCallback.noCallback)]

/-- How many of the thirteen `StartConfig` fields are non-zero. -/
def nonZeroFieldCount (c : StartConfig) : Nat := (fieldNonZeroFlags c).count true

/-! ## Helper lemmas about configuration resolution -/

/-- The one-argument case of `startConfigDefault` written as one parallel
record update: each patched condition reads only the field it patches, so the
Go code's sequential patching equals this form. -/
theorem startConfigDefault_cons (cfg : StartConfig) (rest : List StartConfig) :
    startConfigDefault (cfg :: rest) =
      { cfg with
        GracefulTimeout := if cfg.GracefulTimeout = 0 then tenSeconds else cfg.GracefulTimeout,
        GracefulSignals := if cfg.GracefulSignals.length < 1 then [osInterrupt] else cfg.GracefulSignals,
        ListenerNetwork := if cfg.ListenerNetwork = "" then NetworkTCP4 else cfg.ListenerNetwork,
        OnShutdownError := if cfg.OnShutdownError = ShutdownErrorCallback.noCallback
          then ShutdownErrorCallback.logFatalExit else cfg.OnShutdownError } := by
  unfold startConfigDefault
  split_ifs <;> simp_all

/-- A resolved configuration has a non-zero graceful timeout. -/
theorem resolved_GracefulTimeout_ne (cfgs : List StartConfig) :
    (startConfigDefault cfgs).GracefulTimeout ≠ 0 := by
  cases cfgs with
  | nil => decide
  | cons cfg rest =>
    rw [startConfigDefault_cons]
    dsimp only
    split_ifs with h
    · decide
    · exact h

/-- A resolved configuration has at least one graceful signal. -/
theorem resolved_GracefulSignals_len (cfgs : List StartConfig) :
    ¬ (startConfigDefault cfgs).GracefulSignals.length < 1 := by
  cases cfgs with
  | nil => decide
  | cons cfg rest =>
    rw [startConfigDefault_cons]
    dsimp only
    split_ifs with h
    · decide
    · exact h

/-- A resolved configuration has a non-empty listener network. -/
theorem resolved_ListenerNetwork_ne (cfgs : List StartConfig) :
    (startConfigDefault cfgs).ListenerNetwork ≠ "" := by
  cases cfgs with
  | nil => decide
  | cons cfg rest =>
    rw [startConfigDefault_cons]
    dsimp only
    split_ifs with h
    · decide
    · exact h

/-- A resolved configuration has a non-nil shutdown-error callback. -/
theorem resolved_OnShutdownError_ne (cfgs : List StartConfig) :
    (startConfigDefault cfgs).OnShutdownError ≠ ShutdownErrorCallback.noCallback := by
  cases cfgs with
  | nil => decide
  | cons cfg rest =>
    rw [startConfigDefault_cons]
    dsimp only
    split_ifs with h
    · decide
    · exact h

/-- A resolved configuration has a non-empty graceful-signal list. -/
theorem resolved_GracefulSignals_ne (cfgs : List StartConfig) :
    (startConfigDefault cfgs).GracefulSignals ≠ [] := by
  intro hx
  have h2 := resolved_GracefulSignals_len cfgs
  rw [hx] at h2
  exact h2 (by decide)

/-- Resolving an already-resolved configuration returns it unchanged. -/
theorem startConfigDefault_idem (cfgs : List StartConfig) :
    startConfigDefault [startConfigDefault cfgs] = startConfigDefault cfgs := by
  rw [startConfigDefault_cons]
  have h1 := resolved_GracefulTimeout_ne cfgs
  have h2 := resolved_GracefulSignals_len cfgs
  have h3 := resolved_ListenerNetwork_ne cfgs
  have h4 := resolved_OnShutdownError_ne cfgs
  simp [h1, h2, h3, h4]

/-! ## Claim theorems -/

/-- Claim C1 (code bug).  The claim says the shutdown controller races the
drain against a `gracefulTimeout` timer, reporting a timeout error and
exiting 1 when the drain exceeds the timeout.  The code instead polls the
freshly-created timeout context once, in a non-blocking `select` with a
`default` branch, before the drain starts: under the default configuration
(timeout 10 s) a drain of 20 s — twice the timeout — still ends with exit
status 0 and no timeout error, and the outcome is independent of the drain's
duration altogether. -/
theorem c1_shutdown_timer_never_raced :
    gracefulShutdown (startConfigDefault []) 20000000000 none = { exitCode := 0, reported := [] }
    ∧ ∀ (t : Nat) (e : Option GoErr),
        gracefulShutdown (startConfigDefault []) t e = gracefulShutdown (startConfigDefault []) 0 e :=
  ⟨by decide, fun _ _ => rfl⟩

/-- Claim C2, counterexample.  With a single on-listen hook failing with
error 42, `Start` on a plain string address (every external call succeeding)
does not return the hook's error to the caller: it panics with it. -/
theorem c2_counterexample :
    (Start { baseEnv with onListenHooks := [some (GoErr.base 42)] } (.str ":8080") []).fst
      = Terminal.panicked (PanicKind.onListenHook (GoErr.base 42))
    ∧ (Start { baseEnv with onListenHooks := [some (GoErr.base 42)] } (.str ":8080") []).fst
      ≠ Terminal.returned (some (GoErr.base 42)) := by decide

/-- Claim C2, amended.  A startup hook that returns an error during step 4
aborts startup, with no connections accepted — but by `panic(err)` inside
`startupProcess` carrying that hook's error, not by returning the error to
the caller of `Start` the way configuration and listener-construction errors
are returned.  Shown for both non-prefork entry shapes: a supplied listener,
and a string address whose bind succeeded. -/
theorem c2_hook_error_panics (cfgs : List StartConfig) (env : Env) (l : Listener) (a : String)
    (ln : Listener) (tc : Option TLSConfig) (hs : List Nat) (e : GoErr)
    (hpf : (startConfigDefault cfgs).EnablePrefork = false)
    (htls : assembleTLS env (startConfigDefault cfgs) = .ok tc)
    (hhook : executeOnListenHooks env.onListenHooks = some e)
    (hbind : createListener env (startConfigDefault cfgs) a
        (applyTLSConfigFunc env (startConfigDefault cfgs) tc) = .returned (.ok ln) hs) :
    (Start env (.listener l) cfgs).fst = Terminal.panicked (PanicKind.onListenHook e)
    ∧ (Start env (.str a) cfgs).fst = Terminal.panicked (PanicKind.onListenHook e)
    ∧ (∀ n, Event.serveCall n ∉ (Start env (.listener l) cfgs).snd)
    ∧ (∀ n, Event.serveCall n ∉ (Start env (.str a) cfgs).snd) := by
  simp only [Start, htls, hpf, startTail, startupProcess, hhook, hbind, if_neg]
  simp [List.mem_append, List.mem_map]

/-- Witness for C2's amended theorem at a concrete input. -/
theorem c2_hook_error_panics_witness :
    (Start { baseEnv with onListenHooks := [some (GoErr.base 7)] }
        (.listener { addrVal := 9 }) []).fst
      = Terminal.panicked (PanicKind.onListenHook (GoErr.base 7)) :=
  (c2_hook_error_panics [] { baseEnv with onListenHooks := [some (GoErr.base 7)] }
    { addrVal := 9 } ":81" { addrVal := 5 } none [] (GoErr.base 7)
    (by decide) (by decide) (by decide) (by decide)).1

/-- Claim C3 (code bug).  With a `ListenerAddrFunc` configured and a bind
that fails (error 48), `createListener` does not return the bind failure: it
calls `listener.Addr()` on the nil listener before inspecting the error, a
nil-pointer dereference that panics, and `Start` crashes with it instead of
aborting cleanly. -/
theorem c3_bind_failure_nil_deref :
    createListener { baseEnv with netListen := fun _ _ => .error (.base 48) }
        { startConfigDefault [] with ListenerAddrFunc := some 1 } ":80" none = CLResult.panicked
    ∧ (Start { baseEnv with netListen := fun _ _ => .error (.base 48) } (.str ":80")
        [{ zeroStartConfig with ListenerAddrFunc := some 1 }]).fst
      = Terminal.panicked PanicKind.nilListenerDeref := by decide

/-- Claim C4, counterexample.  `StartConfig` has thirteen fields; resolving
the empty configuration leaves exactly four of them non-zero (the four the
resolver patches), so whichever ten fields are taken as "the ten
default-bearing fields", at least one of them is zero-valued after
resolution — `CertFile`, for one, stays `""`. -/
theorem c4_counterexample :
    (fieldNonZeroFlags (startConfigDefault [])).length = 13
    ∧ nonZeroFieldCount (startConfigDefault []) = 4
    ∧ (startConfigDefault []).CertFile = ""
    ∧ 4 < 10 := by decide

/-- Claim C4, amended.  Configuration resolution is total, pure and
idempotent; it patches exactly four fields — `GracefulTimeout`,
`GracefulSignals`, `ListenerNetwork`, `OnShutdownError` — replacing a
zero value with the default and passing a non-zero value through, leaves
the other nine fields untouched, and after resolution none of those four
fields is zero-valued. -/
theorem c4_resolution (cfgs : List StartConfig) (cfg : StartConfig) :
    startConfigDefault [startConfigDefault cfgs] = startConfigDefault cfgs
    ∧ (startConfigDefault [cfg]).GracefulTimeout
        = (if cfg.GracefulTimeout = 0 then tenSeconds else cfg.GracefulTimeout)
    ∧ (startConfigDefault [cfg]).GracefulSignals
        = (if cfg.GracefulSignals.length < 1 then [osInterrupt] else cfg.GracefulSignals)
    ∧ (startConfigDefault [cfg]).ListenerNetwork
        = (if cfg.ListenerNetwork = "" then NetworkTCP4 else cfg.ListenerNetwork)
    ∧ (startConfigDefault [cfg]).OnShutdownError
        = (if cfg.OnShutdownError = ShutdownErrorCallback.noCallback
            then ShutdownErrorCallback.logFatalExit else cfg.OnShutdownError)
    ∧ (startConfigDefault [cfg]).CertFile = cfg.CertFile
    ∧ (startConfigDefault [cfg]).CertKeyFile = cfg.CertKeyFile
    ∧ (startConfigDefault [cfg]).CertClientFile = cfg.CertClientFile
    ∧ (startConfigDefault [cfg]).TLSConfigFunc = cfg.TLSConfigFunc
    ∧ (startConfigDefault [cfg]).ListenerAddrFunc = cfg.ListenerAddrFunc
    ∧ (startConfigDefault [cfg]).BeforeServeFunc = cfg.BeforeServeFunc
    ∧ (startConfigDefault [cfg]).DisableStartupMessage = cfg.DisableStartupMessage
    ∧ (startConfigDefault [cfg]).EnablePrefork = cfg.EnablePrefork
    ∧ (startConfigDefault [cfg]).EnablePrintRoutes = cfg.EnablePrintRoutes
    ∧ (startConfigDefault cfgs).GracefulTimeout ≠ 0
    ∧ (startConfigDefault cfgs).GracefulSignals ≠ []
    ∧ (startConfigDefault cfgs).ListenerNetwork ≠ ""
    ∧ (startConfigDefault cfgs).OnShutdownError ≠ ShutdownErrorCallback.noCallback := by
  refine ⟨startConfigDefault_idem cfgs, ?_, ?_, ?_, ?_, ?_, ?_, ?_, ?_, ?_, ?_, ?_, ?_, ?_,
    resolved_GracefulTimeout_ne cfgs, resolved_GracefulSignals_ne cfgs,
    resolved_ListenerNetwork_ne cfgs, resolved_OnShutdownError_ne cfgs⟩
  all_goals simp [startConfigDefault_cons]

/-- Claim C5.  With `CertFile` and `CertKeyFile` both non-empty: a key-pair
load failure makes `Start` return an error carrying both file paths and the
underlying cause, with an empty event trace — no listener opened, no silent
fallback to plaintext — for every argument shape; a successful load yields an
assembled TLS configuration whose minimum protocol version is TLS 1.2 and
whose certificate list is exactly the loaded certificate. -/
theorem c5_tls_load (cfgs : List StartConfig) (env : Env) (addr : AddrArg) (e : GoErr)
    (cert : Nat) (t : TLSConfig)
    (hcert : (startConfigDefault cfgs).CertFile ≠ "")
    (hkey : (startConfigDefault cfgs).CertKeyFile ≠ "") :
    (env.loadX509KeyPair (startConfigDefault cfgs).CertFile (startConfigDefault cfgs).CertKeyFile
        = .error e →
      Start env addr cfgs =
        (Terminal.returned (some (GoErr.tlsKeyPairLoad (startConfigDefault cfgs).CertFile
          (startConfigDefault cfgs).CertKeyFile e)), []))
    ∧ (env.loadX509KeyPair (startConfigDefault cfgs).CertFile (startConfigDefault cfgs).CertKeyFile
        = .ok cert →
      assembleTLS env (startConfigDefault cfgs) = .ok (some t) →
      t.minVersion = versionTLS12 ∧ t.certificates = [cert]) := by
  constructor
  · intro hload
    simp [Start, assembleTLS, if_pos (And.intro hcert hkey), hload]
  · intro hload htc
    rw [assembleTLS, if_pos (And.intro hcert hkey), hload] at htc
    dsimp only at htc
    by_cases hc : (startConfigDefault cfgs).CertClientFile ≠ ""
    · rw [if_pos hc] at htc
      cases hread : env.readFile (env.cleanPath (startConfigDefault cfgs).CertClientFile) with
      | error e2 => rw [hread] at htc; exact absurd htc (by simp)
      | ok contents =>
        rw [hread] at htc
        simp only [Except.ok.injEq, Option.some.injEq] at htc
        rw [← htc]
        exact ⟨rfl, rfl⟩
    · rw [if_neg hc] at htc
      simp only [Except.ok.injEq, Option.some.injEq] at htc
      rw [← htc]
      exact ⟨rfl, rfl⟩

/-- Witness for C5 at a concrete input: the load fails, `Start` returns the
wrapped error and the event trace is empty. -/
theorem c5_tls_load_witness :
    Start { baseEnv with loadX509KeyPair := fun _ _ => .error (GoErr.base 3) } (.str ":80")
        [{ zeroStartConfig with CertFile := "cert.pem", CertKeyFile := "key.pem" }]
      = (Terminal.returned (some (GoErr.tlsKeyPairLoad "cert.pem" "key.pem" (GoErr.base 3))), []) :=
  (c5_tls_load [{ zeroStartConfig with CertFile := "cert.pem", CertKeyFile := "key.pem" }]
    { baseEnv with loadX509KeyPair := fun _ _ => .error (GoErr.base 3) } (.str ":80")
    (GoErr.base 3) 0
    { minVersion := 0, certificates := [], clientAuth := .noClientCert, clientCAs := none }
    (by decide) (by decide)).1 (by decide)

/-- Claim C6.  With all three certificate files non-empty, a successful
key-pair load and a readable client-cert file, the assembled TLS
configuration has client-auth mode require-and-verify and a client-CA pool
holding exactly the certificates parsed from the file's PEM contents; under
the handshake model of that mode, a connection presenting no certificate is
rejected, one presenting a certificate verified by no pool member is
rejected, and one presenting a certificate verified by a pool member is
accepted. -/
theorem c6_mtls_config (cfgs : List StartConfig) (env : Env) (cert contents : Nat)
    (hcert : (startConfigDefault cfgs).CertFile ≠ "")
    (hkey : (startConfigDefault cfgs).CertKeyFile ≠ "")
    (hclient : (startConfigDefault cfgs).CertClientFile ≠ "")
    (hload : env.loadX509KeyPair (startConfigDefault cfgs).CertFile
        (startConfigDefault cfgs).CertKeyFile = .ok cert)
    (hread : env.readFile (env.cleanPath (startConfigDefault cfgs).CertClientFile)
        = .ok contents) :
    assembleTLS env (startConfigDefault cfgs)
      = .ok (some { minVersion := versionTLS12, certificates := [cert],
                    clientAuth := ClientAuthType.requireAndVerifyClientCert,
                    clientCAs := some (env.appendCertsFromPEM contents) })
    ∧ handshakeAccepts env.signedBy
        { minVersion := versionTLS12, certificates := [cert],
          clientAuth := ClientAuthType.requireAndVerifyClientCert,
          clientCAs := some (env.appendCertsFromPEM contents) } none = false
    ∧ (∀ c : Nat, ((env.appendCertsFromPEM contents).all fun ca => ! env.signedBy c ca) = true →
        handshakeAccepts env.signedBy
          { minVersion := versionTLS12, certificates := [cert],
            clientAuth := ClientAuthType.requireAndVerifyClientCert,
            clientCAs := some (env.appendCertsFromPEM contents) } (some c) = false)
    ∧ (∀ c : Nat, ((env.appendCertsFromPEM contents).any fun ca => env.signedBy c ca) = true →
        handshakeAccepts env.signedBy
          { minVersion := versionTLS12, certificates := [cert],
            clientAuth := ClientAuthType.requireAndVerifyClientCert,
            clientCAs := some (env.appendCertsFromPEM contents) } (some c) = true) := by
  refine ⟨?_, rfl, ?_, ?_⟩
  · rw [assembleTLS, if_pos (And.intro hcert hkey), hload]
    dsimp only
    rw [if_pos hclient, hread]
  · intro c hall
    simp only [handshakeAccepts]
    rw [List.any_eq_false]
    intro ca hca
    have := (List.all_eq_true.mp hall) ca hca
    simpa using this
  · intro c hany
    simpa [handshakeAccepts] using hany

/-- Witness for C6 at a concrete input. -/
theorem c6_mtls_config_witness :
    assembleTLS baseEnv (startConfigDefault
        [{ zeroStartConfig with CertFile := "c.pem", CertKeyFile := "k.pem",
                                CertClientFile := "ca.pem" }])
      = .ok (some { minVersion := versionTLS12, certificates := [100],
                    clientAuth := ClientAuthType.requireAndVerifyClientCert,
                    clientCAs := some [7] }) :=
  (c6_mtls_config
    [{ zeroStartConfig with CertFile := "c.pem", CertKeyFile := "k.pem",
                            CertClientFile := "ca.pem" }]
    baseEnv 100 1 (by decide) (by decide) (by decide) (by decide) (by decide)).1

/-- Claim C7.  For a textual address with `EnablePrefork` set (and TLS
assembly not failing), `Start` delegates to the prefork coordinator with the
raw address, the TLS configuration and the resolved configuration, returns
the coordinator's result directly, and its event trace is exactly the
delegation — no bind, no hooks, no tree build, no diagnostics, no serve. -/
theorem c7_prefork_delegation (cfgs : List StartConfig) (env : Env) (a : String)
    (tc : Option TLSConfig)
    (hpf : (startConfigDefault cfgs).EnablePrefork = true)
    (htls : assembleTLS env (startConfigDefault cfgs) = .ok tc) :
    Start env (.str a) cfgs =
      (Terminal.returned (env.preforkResult a
          (applyTLSConfigFunc env (startConfigDefault cfgs) tc) (startConfigDefault cfgs)),
       [Event.preforkDelegated a (applyTLSConfigFunc env (startConfigDefault cfgs) tc)]) := by
  simp [Start, htls, hpf]

/-- Witness for C7 at a concrete input. -/
theorem c7_prefork_delegation_witness :
    Start baseEnv (.str ":88") [{ zeroStartConfig with EnablePrefork := true }]
      = (Terminal.returned none, [Event.preforkDelegated ":88" none]) :=
  c7_prefork_delegation [{ zeroStartConfig with EnablePrefork := true }] baseEnv ":88" none
    (by decide) (by decide)

/-- Claim C8, counterexample.  With a configuration whose TLS key pair fails
to load, `Start` applied to an argument that is neither a string nor a
listener returns a recoverable error (the TLS one) instead of failing fast
with the fatal contract-violation panic, so the claim's universally
quantified "fails fast with a fatal, non-recoverable contract violation (not
a recoverable returned error)" is false as stated. -/
theorem c8_counterexample :
    (Start { baseEnv with loadX509KeyPair := fun _ _ => .error (GoErr.base 3) } (.other "int")
       [{ zeroStartConfig with CertFile := "cert.pem", CertKeyFile := "key.pem" }]).fst
      = Terminal.returned (some (GoErr.tlsKeyPairLoad "cert.pem" "key.pem" (GoErr.base 3)))
    ∧ (Start { baseEnv with loadX509KeyPair := fun _ _ => .error (GoErr.base 3) } (.other "int")
       [{ zeroStartConfig with CertFile := "cert.pem", CertKeyFile := "key.pem" }]).fst
      ≠ Terminal.panicked PanicKind.invalidAddrType := by decide

/-- Claim C8, amended.  Whenever the TLS-assembly step does not itself abort
startup with an error, `Start` applied to an argument that is neither a
string nor a listener panics with the fatal contract violation, performing
no observable step — it never silently defaults to any behavior. -/
theorem c8_invalid_addr_panics (cfgs : List StartConfig) (env : Env) (d : String)
    (tc : Option TLSConfig)
    (htls : assembleTLS env (startConfigDefault cfgs) = .ok tc) :
    Start env (.other d) cfgs = (Terminal.panicked PanicKind.invalidAddrType, []) := by
  simp [Start, htls]

/-- Witness for C8's amended theorem at a concrete input. -/
theorem c8_invalid_addr_panics_witness :
    Start baseEnv (.other "int") [] = (Terminal.panicked PanicKind.invalidAddrType, []) :=
  c8_invalid_addr_panics [] baseEnv "int" none (by decide)

/-- Claim C9.  When the client-cert file is readable but its contents parse
to no certificate, `Start`'s TLS assembly reports no error — the result of
`AppendCertsFromPEM` is ignored — and startup proceeds with
require-and-verify client auth against an empty pool, under which every
connection, with or without a client certificate, fails verification. -/
theorem c9_empty_pem_pool (cfgs : List StartConfig) (env : Env) (cert contents : Nat)
    (hcert : (startConfigDefault cfgs).CertFile ≠ "")
    (hkey : (startConfigDefault cfgs).CertKeyFile ≠ "")
    (hclient : (startConfigDefault cfgs).CertClientFile ≠ "")
    (hload : env.loadX509KeyPair (startConfigDefault cfgs).CertFile
        (startConfigDefault cfgs).CertKeyFile = .ok cert)
    (hread : env.readFile (env.cleanPath (startConfigDefault cfgs).CertClientFile)
        = .ok contents)
    (hempty : env.appendCertsFromPEM contents = []) :
    assembleTLS env (startConfigDefault cfgs)
      = .ok (some { minVersion := versionTLS12, certificates := [cert],
                    clientAuth := ClientAuthType.requireAndVerifyClientCert,
                    clientCAs := some [] })
    ∧ (∀ c : Option Nat, handshakeAccepts env.signedBy
        { minVersion := versionTLS12, certificates := [cert],
          clientAuth := ClientAuthType.requireAndVerifyClientCert, clientCAs := some [] }
        c = false) := by
  constructor
  · rw [assembleTLS, if_pos (And.intro hcert hkey), hload]
    dsimp only
    rw [if_pos hclient, hread]
    dsimp only
    rw [hempty]
  · intro c
    cases c <;> rfl

/-- Witness for C9 at a concrete input. -/
theorem c9_empty_pem_pool_witness :
    assembleTLS { baseEnv with appendCertsFromPEM := fun _ => [] } (startConfigDefault
        [{ zeroStartConfig with CertFile := "c.pem", CertKeyFile := "k.pem",
                                CertClientFile := "ca.pem" }])
      = .ok (some { minVersion := versionTLS12, certificates := [100],
                    clientAuth := ClientAuthType.requireAndVerifyClientCert,
                    clientCAs := some [] })
    ∧ handshakeAccepts (fun _ _ => false)
        { minVersion := versionTLS12, certificates := [100],
          clientAuth := ClientAuthType.requireAndVerifyClientCert, clientCAs := some [] }
        (some 5) = false :=
  ⟨(c9_empty_pem_pool
      [{ zeroStartConfig with CertFile := "c.pem", CertKeyFile := "k.pem",
                              CertClientFile := "ca.pem" }]
      { baseEnv with appendCertsFromPEM := fun _ => [] } 100 1
      (by decide) (by decide) (by decide) (by decide) (by decide) (by decide)).1,
   (c9_empty_pem_pool
      [{ zeroStartConfig with CertFile := "c.pem", CertKeyFile := "k.pem",
                              CertClientFile := "ca.pem" }]
      { baseEnv with appendCertsFromPEM := fun _ => [] } 100 1
      (by decide) (by decide) (by decide) (by decide) (by decide) (by decide)).2 (some 5)⟩

/-- Claim C10.  The default `OnShutdownError` callback is `log.Fatalf`,
which terminates the process with exit status 1; so under the default
configuration, whenever the drain completes but reports an error, the run
ends with exit status 1 (the error having been reported once) and the
exit-status-0 terminal path is never reached, regardless of how long the
drain took. -/
theorem c10_default_callback_exit1 (t : Nat) (e : GoErr) :
    (startConfigDefault []).OnShutdownError = ShutdownErrorCallback.logFatalExit
    ∧ gracefulShutdown (startConfigDefault []) t (some e) = { exitCode := 1, reported := [e] } := by
  refine ⟨by decide, ?_⟩
  show (if (startConfigDefault []).GracefulTimeout ≤ 0 then _ else _) = _
  rw [if_neg (by decide)]
  rfl

end FiberStart
